import Mathlib

/-!
Verification development for the `mcp_hackathon` code-analysis workflow.

This file gives a shallow embedding, in Lean 4, of the core orchestration
logic of the repository:

* `src/core/utils.py`            — `parse_thinking_outputs`
* `src/core/schemas.py`          — `OutputSchema`, `OrchestratorDecision`
* `src/agents/doc_agent.py`      — `DocAgent.analyze_documentation`
* `src/agents/security_agent.py` — `SecurityAgent.analyze_security`
* `src/workflows/code_analysis_workflow.py`
                                 — the `CodeAnalysisWorkflow` steps and the
                                   event-dispatch behaviour of the engine.

Conventions of the embedding:

* Python strings are Lean `String`s; the character-level operations used by
  the source (`str.find`, `str.rfind`, slicing, `str.strip`, `str.split`)
  are re-implemented structurally over `String.data` so that every
  definition is executable and kernel-reducible.
* `json.loads` is modelled by `jsonLoads`, a terminating recursive-descent
  reader for the JSON fragment actually exercised here (null / booleans /
  integers / escape-free strings / arrays / objects).  Failure is `none`,
  matching the `json.JSONDecodeError` branch of the source.
* Code that can raise is modelled with `Except String`, the `String` being
  a rendition of the Python exception text.  Exception messages whose
  exact text the source does not determine (positions inside CPython
  decode errors, pydantic validation details) are abbreviated; messages
  the source fixes verbatim (e.g. `"No JSON found"`) are kept.
* The LLM back end, the ReAct agent loop, and the remote Gradio tools are
  external collaborators; they enter as oracle parameters
  (`llm : String → String` for `self.llm.acomplete`,
  `String → Except String String` for `self.agent.query`, which may raise).
* The workflow engine dispatches every emitted event to each step whose
  signature accepts that event type.  `runWorkflow` realises one
  deterministic schedule of that dispatch (FIFO queue, handlers invoked in
  source order), which suffices for the reachability facts proved below.
-/

/-! ## A model of JSON values and of `json.loads` -/

inductive Json where
  | null
  | bool (b : Bool)
  | num (n : Int)
  | str (s : String)
  | arr (xs : List Json)
  | obj (kvs : List (String × Json))
deriving Repr, Inhabited

/-- Python truthiness of a decoded JSON value (`if llm_json_response:`). -/
def Json.truthy : Json → Bool
  | Json.null => false
  | Json.bool b => b
  | Json.num n => n != 0
  | Json.str s => s != ""
  | Json.arr [] => false
  | Json.arr (_ :: _) => true
  | Json.obj [] => false
  | Json.obj (_ :: _) => true

/-- Python truthiness of `json.loads`-or-`None` results. -/
def optTruthy : Option Json → Bool
  | none => false
  | some j => j.truthy

/-- Drop leading JSON whitespace. -/
def skipWs : List Char → List Char
  | [] => []
  | c :: cs => if c = ' ' ∨ c = '\t' ∨ c = '\n' ∨ c = '\r' then skipWs cs else c :: cs

/-- Read the body of a JSON string up to the closing quote.
Escape sequences are outside the modelled fragment (they make the reader
fail, conservatively). -/
def splitAtQuote : List Char → Option (List Char × List Char)
  | [] => none
  | c :: cs =>
    if c = '"' then some ([], cs)
    else if c = '\\' then none
    else match splitAtQuote cs with
      | some (s, rest) => some (c :: s, rest)
      | none => none

def takeDigits : List Char → List Char × List Char
  | [] => ([], [])
  | c :: cs =>
    if c.isDigit then
      let (d, r) := takeDigits cs
      (c :: d, r)
    else ([], c :: cs)

def digitsToNat (l : List Char) : Nat :=
  l.foldl (fun a c => a * 10 + (c.toNat - 48)) 0

/-- Check that `pre` is literally the next chunk of input and drop it. -/
def expectChars : List Char → List Char → Option (List Char)
  | [], cs => some cs
  | _, [] => none
  | p :: ps, c :: cs => if p = c then expectChars ps cs else none

mutual

def parseVal : Nat → List Char → Option (Json × List Char)
  | 0, _ => none
  | Nat.succ fuel, cs =>
    match skipWs cs with
    | [] => none
    | c :: rest =>
      if c = 'n' then
        match expectChars "ull".data rest with
        | some r => some (Json.null, r)
        | none => none
      else if c = 't' then
        match expectChars "rue".data rest with
        | some r => some (Json.bool true, r)
        | none => none
      else if c = 'f' then
        match expectChars "alse".data rest with
        | some r => some (Json.bool false, r)
        | none => none
      else if c = '"' then
        match splitAtQuote rest with
        | some (s, r) => some (Json.str ⟨s⟩, r)
        | none => none
      else if c = '[' then parseArrElems fuel rest
      else if c = '\x7b' then parseObjElems fuel rest
      else if c = '-' then
        match takeDigits rest with
        | ([], _) => none
        | (ds, r) => some (Json.num (-(Int.ofNat (digitsToNat ds))), r)
      else if c.isDigit then
        let (ds, r) := takeDigits (c :: rest)
        some (Json.num (Int.ofNat (digitsToNat ds)), r)
      else none

def parseArrElems : Nat → List Char → Option (Json × List Char)
  | 0, _ => none
  | Nat.succ fuel, cs =>
    match skipWs cs with
    | ']' :: rest => some (Json.arr [], rest)
    | cs2 =>
      match parseVal fuel cs2 with
      | none => none
      | some (v, rest) =>
        match skipWs rest with
        | ',' :: rest2 =>
          match parseArrElems fuel rest2 with
          | some (Json.arr vs, r) => some (Json.arr (v :: vs), r)
          | _ => none
        | ']' :: rest2 => some (Json.arr [v], rest2)
        | _ => none

def parseObjElems : Nat → List Char → Option (Json × List Char)
  | 0, _ => none
  | Nat.succ fuel, cs =>
    match skipWs cs with
    | '\x7d' :: rest => some (Json.obj [], rest)
    | '"' :: rest =>
      match splitAtQuote rest with
      | none => none
      | some (key, rest2) =>
        match skipWs rest2 with
        | ':' :: rest3 =>
          match parseVal fuel rest3 with
          | none => none
          | some (v, rest4) =>
            match skipWs rest4 with
            | ',' :: rest5 =>
              match parseObjElems fuel rest5 with
              | some (Json.obj kvs, r) => some (Json.obj ((⟨key⟩, v) :: kvs), r)
              | _ => none
            | '\x7d' :: rest5 => some (Json.obj [(⟨key⟩, v)], rest5)
            | _ => none
        | _ => none
    | _ => none

end

/-- Model of Python `json.loads`: one JSON document, optionally surrounded by
whitespace; anything else fails (`none` stands for `json.JSONDecodeError`). -/
def jsonLoads (s : String) : Option Json :=
  match parseVal (2 * s.data.length + 2) s.data with
  | some (v, rest) => if skipWs rest = [] then some v else none
  | none => none

/-! ## Python string primitives used by the source -/

/-- Index of the first occurrence of `c` in a character list. -/
def charIdx (c : Char) : List Char → Option Nat
  | [] => none
  | x :: xs => if x = c then some 0 else (charIdx c xs).map (· + 1)

/-- `str.find(c)`: index of the first occurrence of `c`, `-1` if absent. -/
def pyFindChar (s : String) (c : Char) : Int :=
  match charIdx c s.data with
  | some i => Int.ofNat i
  | none => -1

/-- `str.rfind(c)`: index of the last occurrence of `c`, `-1` if absent. -/
def pyRfindChar (s : String) (c : Char) : Int :=
  match charIdx c s.data.reverse with
  | some i => Int.ofNat (s.data.length - 1 - i)
  | none => -1

/-- Python slicing `s[i:j]` for `0 ≤ i`, `0 ≤ j`. -/
def pySubstr (s : String) (i j : Nat) : String :=
  ⟨(s.data.drop i).take (j - i)⟩

/-- `str.strip()` (over the common whitespace characters). -/
def pyStrip (s : String) : String :=
  ⟨skipWs ((skipWs s.data.reverse).reverse)⟩

/-- Suffix of `l` after the last occurrence of `marker`
(`s.split(marker)[-1]` when the marker occurs); `none` when `marker` does
not occur in `l`. -/
def afterLastMarkerAux (marker : List Char) : List Char → Option (List Char)
  | [] => if marker = [] then some [] else none
  | c :: cs =>
    match afterLastMarkerAux marker cs with
    | some suf => some suf
    | none =>
      if marker.isPrefixOf (c :: cs) then some ((c :: cs).drop marker.length)
      else none

def thinkMarker : List Char := "</think>".data

/-! ## `src/core/utils.py` -/

/-- `parse_thinking_outputs` (src/core/utils.py, lines 5–13): if the
response contains `"</think>"`, keep only what follows its last occurrence
and strip it; then strictly `json.loads` the remainder, returning `None`
(here `none`) on any decode error. -/
def parse_thinking_outputs (agent_response_str : String) : Option Json :=
  match afterLastMarkerAux thinkMarker agent_response_str.data with
  | some suf => jsonLoads (pyStrip ⟨suf⟩)
  | none => jsonLoads agent_response_str

/-! ## `src/core/schemas.py` -/

/-- `OutputSchema`: `code`, `issue`, `reason`, `feedback` are required
strings; `fixed_code` is `Optional[str]` defaulting to `None`. -/
structure OutputSchema where
  code : String
  issue : String
  reason : String
  fixed_code : Option String
  feedback : String
deriving DecidableEq, Repr

/-- `OrchestratorDecision`: all four fields required. -/
structure OrchestratorDecision where
  analysis_depth : String
  invoke_doc_agent : Bool
  invoke_security_agent : Bool
  reasoning : String
deriving DecidableEq, Repr

/-- Key lookup in a decoded JSON object.  A Python `dict` built by
`json.loads` keeps the last duplicate of a key, hence the reversed scan. -/
def lookupJson (kvs : List (String × Json)) (k : String) : Option Json :=
  (kvs.reverse.find? (fun p => p.1 = k)).map (fun p => p.2)

/-- `d.get(k, dflt)` followed by pydantic validation of a required `str`
field: absent key yields the (string) default, a present non-string value
is a `ValidationError`. -/
def getStrDefault (kvs : List (String × Json)) (k dflt : String) : Except String String :=
  match lookupJson kvs k with
  | none => .ok dflt
  | some (Json.str s) => .ok s
  | some _ => .error ("ValidationError: " ++ k ++ " must be a string")

/-- `d.get(k, dflt)` for the `Optional[str]` field `fixed_code`: absent key
yields the default, JSON `null` is accepted as `None`, a string is kept,
anything else is a `ValidationError`. -/
def getOptStrDefault (kvs : List (String × Json)) (k : String) (dflt : Option String) :
    Except String (Option String) :=
  match lookupJson kvs k with
  | none => .ok dflt
  | some Json.null => .ok none
  | some (Json.str s) => .ok (some s)
  | some _ => .error ("ValidationError: " ++ k ++ " must be a string or null")

/-- `OrchestratorDecision(**decision_dict)`: pydantic construction from a
decoded JSON value.  A non-object makes the `**` spread a `TypeError`;
missing or mistyped fields are `ValidationError`s.  Both are caught by the
caller's blanket `except`. -/
def orchestratorDecisionOfJson : Json → Except String OrchestratorDecision
  | Json.obj kvs =>
    match lookupJson kvs "analysis_depth", lookupJson kvs "invoke_doc_agent",
          lookupJson kvs "invoke_security_agent", lookupJson kvs "reasoning" with
    | some (Json.str depth), some (Json.bool d), some (Json.bool s), some (Json.str r) =>
      .ok ⟨depth, d, s, r⟩
    | _, _, _, _ => .error "ValidationError: invalid OrchestratorDecision fields"
  | _ => .error "TypeError: arguments must be a mapping"

/-- `OutputSchema(**json.loads(json_str))`: pydantic construction from a
decoded JSON value (used by `aggregation_step`). -/
def outputSchemaOfJson : Json → Except String OutputSchema
  | Json.obj kvs =>
    match lookupJson kvs "code", lookupJson kvs "issue",
          lookupJson kvs "reason", lookupJson kvs "feedback" with
    | some (Json.str code), some (Json.str issue), some (Json.str reason),
      some (Json.str feedback) =>
      match lookupJson kvs "fixed_code" with
      | none => .ok ⟨code, issue, reason, none, feedback⟩
      | some Json.null => .ok ⟨code, issue, reason, none, feedback⟩
      | some (Json.str f) => .ok ⟨code, issue, reason, some f, feedback⟩
      | some _ => .error "ValidationError: fixed_code must be a string or null"
    | _, _, _, _ => .error "ValidationError: invalid OutputSchema fields"
  | _ => .error "TypeError: arguments must be a mapping"

/-! ## `src/agents/doc_agent.py` and `src/agents/security_agent.py`

Each agent wraps an LLM-driven ReAct loop (`self.agent.query`), modelled by
an oracle `agentQuery : String → Except String String`: `.ok resp` is the
text of `agent_response.response`, `.error e` an exception raised during
tool invocation or the LLM call.  The `try` body of each `analyze_*`
method is translated separately from its `except` clause. -/

namespace DocAgent

def doc_analysis_prompt (query : String) : String :=
  "Analyzes the documentation of the provided Python code snippet using its LLM agent and available tools.\n" ++
  "Focus on PEP 257 compliance and general docstring quality.\n" ++
  "Use the gradio_documentation_scanner tool to get Pydocstyle results and incorporate these findings into your analysis.\n" ++
  "The output must only be in the following JSON format.\n" ++
  "Code to analyze:\n```python\n" ++ query ++ "\n```"

/-- The `try` body of `DocAgent.analyze_documentation` (lines 114–136):
query the agent, parse, and on a truthy parse build the record with
`.get` defaults; a falsy parse yields the "Agent Response Error" record.
`.error` values are the exceptions the enclosing `except` catches. -/
def docTryBody (agentQuery : String → Except String String) (query : String) :
    Except String OutputSchema :=
  match agentQuery (doc_analysis_prompt query) with
  | .error e => .error e
  | .ok resp =>
    let j := parse_thinking_outputs resp
    if optTruthy j then
      match j with
      | some (Json.obj kvs) =>
        match getStrDefault kvs "issue" "No issue details provided by agent.",
              getStrDefault kvs "feedback" "No feedback provided by agent.",
              getOptStrDefault kvs "fixed_code" (some query),
              getStrDefault kvs "reason" "No reason provided by agent." with
        | .ok issue, .ok feedback, .ok fixed, .ok reason =>
          .ok ⟨query, issue, reason, fixed, feedback⟩
        | _, _, _, _ => .error "ValidationError: invalid OutputSchema fields"
      | _ => .error "AttributeError: object has no attribute get"
    else
      .ok ⟨query, "Agent Response Error",
           "Agent failed to format its output correctly after processing.",
           some query,
           "Agent did not produce the expected JSON output. Raw response: " ++ resp⟩

/-- `DocAgent.analyze_documentation` (lines 94–148): the `try` body with its
blanket `except Exception`, which returns the "Agent Execution Error"
record — the agent never propagates an exception. -/
def analyze_documentation (agentQuery : String → Except String String) (query : String) :
    OutputSchema :=
  match docTryBody agentQuery query with
  | .ok out => out
  | .error e =>
    ⟨query, "Agent Execution Error",
     "The documentation analysis agent encountered an internal error.",
     some query,
     "An error occurred: " ++ e⟩

end DocAgent

namespace SecurityAgent

def security_analysis_prompt (query : String) : String :=
  "Analyzes the security of the provided code snippet using its LLM agent.\n" ++
  "Analyze the security of the following Python code for common vulnerabilities.\n" ++
  "The output must only be in the following JSON format. strictly adhere to this format.\n" ++
  "--- CODE START ---\n" ++ query ++ "\n--- CODE END ---"

/-- The `try` body of `SecurityAgent.analyze_security` (lines 106–133);
identical structure and literal strings to the doc agent's. -/
def secTryBody (agentQuery : String → Except String String) (query : String) :
    Except String OutputSchema :=
  match agentQuery (security_analysis_prompt query) with
  | .error e => .error e
  | .ok resp =>
    let j := parse_thinking_outputs resp
    if optTruthy j then
      match j with
      | some (Json.obj kvs) =>
        match getStrDefault kvs "issue" "No issue details provided by agent.",
              getStrDefault kvs "feedback" "No feedback provided by agent.",
              getOptStrDefault kvs "fixed_code" (some query),
              getStrDefault kvs "reason" "No reason provided by agent." with
        | .ok issue, .ok feedback, .ok fixed, .ok reason =>
          .ok ⟨query, issue, reason, fixed, feedback⟩
        | _, _, _, _ => .error "ValidationError: invalid OutputSchema fields"
      | _ => .error "AttributeError: object has no attribute get"
    else
      .ok ⟨query, "Agent Response Error",
           "Agent failed to format its output correctly after processing.",
           some query,
           "Agent did not produce the expected JSON output. Raw response: " ++ resp⟩

/-- `SecurityAgent.analyze_security` (lines 83–146): `try` body plus the
`except Exception` clause building the "SecurityAgent Execution Error"
record. -/
def analyze_security (agentQuery : String → Except String String) (query : String) :
    OutputSchema :=
  match secTryBody agentQuery query with
  | .ok out => out
  | .error e =>
    ⟨query, "SecurityAgent Execution Error",
     "Exception during agent processing.",
     some query,
     "Error in SecurityAgent: " ++ e⟩

end SecurityAgent

/-! ## `src/workflows/code_analysis_workflow.py` -/

namespace CodeAnalysisWorkflow

/-- The per-request slot for one sub-analysis in the context state: the
string sentinel `"EXPECTED"` or an `Optional[OutputSchema]` value. -/
inductive Slot where
  | expected
  | value (v : Option OutputSchema)
deriving DecidableEq, Repr

def Slot.findings : Slot → Option OutputSchema
  | Slot.expected => none
  | Slot.value v => v

/-- The per-request `workflow_state` dict created by
`dispatch_agencies_step` (lines 144–149). -/
structure WorkflowState where
  assessment : OrchestratorDecision
  code_string : String
  doc_findings : Slot
  security_findings : Slot
deriving DecidableEq, Repr

/-- `ctx` keyed by request id.  `none` covers both "never set" and
"set to `None`": `ctx.get(request_id, default=None)` cannot tell them
apart. -/
abbrev Store := String → Option WorkflowState

def storeSet (st : Store) (k : String) (v : Option WorkflowState) : Store :=
  fun k2 => if k2 = k then v else st k2

def emptyStore : Store := fun _ => none

/-- `AggregationReadyEvent` (lines 58–63). -/
structure AggregationReadyEvent where
  request_id : String
  code_string : String
  assessment : OrchestratorDecision
  doc_findings : Option OutputSchema
  security_findings : Option OutputSchema
deriving DecidableEq, Repr

/-- `WorkflowCompleteOutput` (lines 26–30). -/
structure WorkflowCompleteOutput where
  request_id : String
  final_aggregated_output : OutputSchema
  doc_agent_output : Option OutputSchema
  security_agent_output : Option OutputSchema
deriving DecidableEq, Repr

/-- The events the workflow's steps exchange (lines 33–63).  `StartEvent`
and the terminal `StopEvent` live in the runner, not in the queue. -/
inductive WEvent where
  | codeRequest (request_id code : String)
  | assessed (request_id code : String) (assessment : OrchestratorDecision)
  | docTrigger (request_id code : String)
  | secTrigger (request_id code : String)
  | docComplete (request_id : String) (doc_findings : Option OutputSchema)
  | secComplete (request_id : String) (security_findings : Option OutputSchema)
  | aggReady (ev : AggregationReadyEvent)
deriving DecidableEq, Repr

/-- The decision built when the input code is empty (lines 89–94). -/
def emptyCodeDecision : OrchestratorDecision :=
  ⟨"minimum", false, false, "Input code was empty."⟩

def assessment_prompt (code_string : String) : String :=
  "You are a master software analysis orchestrator. Given the following Python code:\n" ++
  "--- CODE START ---\n" ++ code_string ++ "\n--- CODE END ---\n" ++
  "1. Assess the code and determine the required analysis depth.\n" ++
  "2. Decide which specialized analysis agents to invoke.\n" ++
  "3. Respond ONLY with a JSON object containing your assessment."

/-- Modelled CPython `JSONDecodeError` text for an undecodable candidate
substring (the source does not fix the position details). -/
def decodeErrorMsg : String := "Expecting value: line 1 column 1 (char 0)"

/-- The `try` block of `initial_assessment_step` (lines 114–121): locate
the first `\x7b` and the last `\x7d`, JSON-decode the slice between them and
validate it as an `OrchestratorDecision`; when no such slice exists the
source itself raises `json.JSONDecodeError("No JSON found", "", 0)`, whose
`str` is the fixed message kept here. -/
def assessTryDecision (assessment_response_str : String) : Except String OrchestratorDecision :=
  let json_start_index := pyFindChar assessment_response_str '\x7b'
  let json_end_index := pyRfindChar assessment_response_str '\x7d' + 1
  if json_start_index ≠ -1 ∧ json_end_index ≠ -1 ∧ json_start_index < json_end_index then
    match jsonLoads (pySubstr assessment_response_str json_start_index.toNat json_end_index.toNat) with
    | some v => orchestratorDecisionOfJson v
    | none => .error decodeErrorMsg
  else .error "No JSON found: line 1 column 1 (char 0)"

/-- Lines 113–125: the `try` block with its `except Exception` clause,
which defaults to `standard` depth, both agents invoked, and
`reasoning = f"Parse error: \x7be\x7d"`. -/
def assessResponseDecision (assessment_response_str : String) : OrchestratorDecision :=
  match assessTryDecision assessment_response_str with
  | .ok decision => decision
  | .error e => ⟨"standard", true, true, "Parse error: " ++ e⟩

/-- `initial_assessment_step` (lines 83–126) for a request already carrying
its id.  The first component counts LLM calls (`self.llm.acomplete`):
empty or whitespace-only code short-circuits with zero calls. -/
def initial_assessment_step (llm : String → String) (code_string : String) :
    Nat × OrchestratorDecision :=
  if pyStrip code_string = "" then (0, emptyCodeDecision)
  else (1, assessResponseDecision (llm (assessment_prompt code_string)))

/-- `dispatch_agencies_step` (lines 128–160): with no agent invoked, emit
`AggregationReadyEvent` immediately and allocate no state; otherwise store
the per-request state (sentinel `EXPECTED` per invoked agent, `None`
otherwise) and send the triggers. -/
def dispatch_agencies_step (store : Store) (request_id code_string : String)
    (assessment : OrchestratorDecision) : Store × List WEvent :=
  if assessment.invoke_doc_agent = false ∧ assessment.invoke_security_agent = false then
    (store, [WEvent.aggReady ⟨request_id, code_string, assessment, none, none⟩])
  else
    let workflow_state : WorkflowState :=
      ⟨assessment, code_string,
       (if assessment.invoke_doc_agent then Slot.expected else Slot.value none),
       (if assessment.invoke_security_agent then Slot.expected else Slot.value none)⟩
    (storeSet store request_id (some workflow_state),
     (if assessment.invoke_doc_agent then [WEvent.docTrigger request_id code_string] else []) ++
     (if assessment.invoke_security_agent then [WEvent.secTrigger request_id code_string] else []))

/-- The two completion events the collector consumes (lines 50–56). -/
inductive CompletionEvent where
  | doc (request_id : String) (doc_findings : Option OutputSchema)
  | sec (request_id : String) (security_findings : Option OutputSchema)
deriving DecidableEq, Repr

def CompletionEvent.request_id : CompletionEvent → String
  | CompletionEvent.doc rid _ => rid
  | CompletionEvent.sec rid _ => rid

/-- `collector_step` (lines 184–220): look the request's state up
(discarding events for unknown requests), overwrite the matching slot,
re-persist the state, and fire `AggregationReadyEvent` exactly when no
slot still holds the `EXPECTED` sentinel.  The state is re-persisted, not
deleted, in every branch (line 210: "manual cleanup is not needed"). -/
def collector_step (store : Store) (ev : CompletionEvent) :
    Store × Option AggregationReadyEvent :=
  match store ev.request_id with
  | none => (store, none)
  | some workflow_state =>
    let st2 : WorkflowState :=
      match ev with
      | CompletionEvent.doc _ f => { workflow_state with doc_findings := Slot.value f }
      | CompletionEvent.sec _ f => { workflow_state with security_findings := Slot.value f }
    let store2 := storeSet store ev.request_id (some st2)
    if st2.doc_findings ≠ Slot.expected ∧ st2.security_findings ≠ Slot.expected then
      (store2, some ⟨ev.request_id, st2.code_string, st2.assessment,
                     st2.doc_findings.findings, st2.security_findings.findings⟩)
    else (store2, none)

def final_prompt (ev : AggregationReadyEvent) : String :=
  "You are a master software analysis orchestrator.\nCode to analyze:\n---\n" ++
  ev.code_string ++ "\n---\nInitial assessment was: " ++ ev.assessment.reasoning ++
  "\nSynthesize these findings into a single, actionable, and user-friendly summary." ++
  "\nRespond ONLY with the JSON object."

/-- `aggregation_step` (lines 222–285): accepts `AggregationReadyEvent`,
calls the LLM, extracts the first-`\x7b`-to-last-`\x7d` slice (the guard here
does not compare the two indices), and validates it as an `OutputSchema`.
Its `except` clause constructs `OutputSchema(summary=..., recommendations=...,
issues=[])`, which lacks every required field of `OutputSchema`, so the
fallback itself raises a pydantic `ValidationError` — modelled as the
`.error` result.  (The code below line 286 of the source is unreachable:
it follows a `return`.) -/
def aggregation_step (llm : String → String) (ev : AggregationReadyEvent) :
    Except String WorkflowCompleteOutput :=
  let response_text := llm (final_prompt ev)
  let json_start_index := pyFindChar response_text '\x7b'
  let json_end_index := pyRfindChar response_text '\x7d' + 1
  let attempt : Except String OutputSchema :=
    if json_start_index ≠ -1 ∧ json_end_index ≠ -1 then
      match jsonLoads (pySubstr response_text json_start_index.toNat json_end_index.toNat) with
      | some v => outputSchemaOfJson v
      | none => .error decodeErrorMsg
    else .error "No valid JSON found in the aggregator response."
  match attempt with
  | .ok final_output =>
    .ok ⟨ev.request_id, final_output, ev.doc_findings, ev.security_findings⟩
  | .error _ =>
    .error "ValidationError: 4 validation errors for OutputSchema"

def aggregation_prompt (ev : AggregationReadyEvent) : String :=
  "Synthesize analysis for code:\n" ++ ev.code_string ++
  "\nAssessment:\n" ++ ev.assessment.reasoning ++
  "\nRespond ONLY with JSON."

/-- The field extraction of `final_aggregation_step` (lines 336–344):
`final_json_dict.get(...)` with per-field defaults, and the pydantic
validation performed by the `OutputSchema` constructor — with no guard: a
`None` result of `parse_thinking_outputs` (undecodable response) raises
`AttributeError`, a non-dict result likewise, and a non-string field value
raises a pydantic `ValidationError`. -/
def finalAggFields (final_json_dict : Option Json) :
    Except String (String × String × String × Option String) :=
  match final_json_dict with
  | none => .error "AttributeError: NoneType object has no attribute get"
  | some (Json.obj kvs) =>
    match getStrDefault kvs "issue" "Aggregation Incomplete",
          getStrDefault kvs "feedback" "Could not generate aggregated feedback.",
          getStrDefault kvs "reason" "N/A",
          getOptStrDefault kvs "fixed_code" (some "") with
    | .ok issue, .ok feedback, .ok reason, .ok fixed => .ok (issue, feedback, reason, fixed)
    | _, _, _, _ => .error "ValidationError: invalid OutputSchema fields"
  | some _ => .error "AttributeError: object has no attribute get"

/-- `final_aggregation_step` (lines 314–356): also accepts
`AggregationReadyEvent`.  It calls the LLM, runs `parse_thinking_outputs`,
and builds its `OutputSchema` via `finalAggFields` (whose failures are
exceptions this step does NOT catch).  On success it packages the
`WorkflowCompleteOutput` and clears the request's state
(`ctx.set(ev.request_id, None)`, line 355). -/
def final_aggregation_step (llm : String → String) (store : Store)
    (ev : AggregationReadyEvent) : Except String (Store × WorkflowCompleteOutput) :=
  let final_report_str := llm (aggregation_prompt ev)
  match finalAggFields (parse_thinking_outputs final_report_str) with
  | .error e => .error e
  | .ok (issue, feedback, reason, fixed) =>
    .ok (storeSet store ev.request_id none,
         ⟨ev.request_id,
          ⟨ev.code_string, issue, reason, fixed, feedback⟩,
          ev.doc_findings, ev.security_findings⟩)

end CodeAnalysisWorkflow

namespace CodeAnalysisWorkflow

/-! ## A deterministic run of the event-driven engine

llama_index delivers every produced event to each `@step` whose signature
accepts that event type.  Per the source signatures:

* `CodeAnalysisRequestEvent`      → `initial_assessment_step`
* `InitialAssessmentEvent`        → `dispatch_agencies_step`
* `DocAnalysisRequestTrigger`     → `doc_analysis_step`
* `SecurityAnalysisRequestTrigger`→ `security_analysis_step`
* `DocAnalysisCompleteEvent`,
  `SecurityAnalysisCompleteEvent` → `collector_step`
* `AggregationReadyEvent`         → `aggregation_step` AND
                                    `final_aggregation_step` (both, lines
                                    223 and 315)

`runWorkflow` executes one FIFO schedule of this dispatch; steps that
raise are recorded in `raised`, `StopEvent` results in `stops`. -/

/-- The external collaborators of one run: the workflow's own LLM
(`self.llm.acomplete`) and the two agents' ReAct loops (`self.agent.query`,
which may raise). -/
structure Oracles where
  llm : String → String
  doc_agent : String → Except String String
  security_agent : String → Except String String

structure RunState where
  store : Store
  queue : List WEvent
  stops : List WorkflowCompleteOutput
  raised : List String

/-- Deliver one event to every step that accepts it (in source order),
threading the context store. -/
def handleEvent (o : Oracles) (rs : RunState) : WEvent → RunState
  | WEvent.codeRequest request_id code =>
    let d := (initial_assessment_step o.llm code).2
    { rs with queue := rs.queue ++ [WEvent.assessed request_id code d] }
  | WEvent.assessed request_id code assessment =>
    let (store2, evs) := dispatch_agencies_step rs.store request_id code assessment
    { rs with store := store2, queue := rs.queue ++ evs }
  | WEvent.docTrigger request_id code =>
    -- `doc_analysis_step` (lines 162–171): `analyze_documentation` is
    -- total, so the `except` branch (findings `None`) is dead here.
    let findings := DocAgent.analyze_documentation o.doc_agent code
    { rs with queue := rs.queue ++ [WEvent.docComplete request_id (some findings)] }
  | WEvent.secTrigger request_id code =>
    let findings := SecurityAgent.analyze_security o.security_agent code
    { rs with queue := rs.queue ++ [WEvent.secComplete request_id (some findings)] }
  | WEvent.docComplete request_id f =>
    let (store2, out) := collector_step rs.store (CompletionEvent.doc request_id f)
    { rs with store := store2,
              queue := rs.queue ++ (match out with
                | some e => [WEvent.aggReady e]
                | none => []) }
  | WEvent.secComplete request_id f =>
    let (store2, out) := collector_step rs.store (CompletionEvent.sec request_id f)
    { rs with store := store2,
              queue := rs.queue ++ (match out with
                | some e => [WEvent.aggReady e]
                | none => []) }
  | WEvent.aggReady ev =>
    let rs1 :=
      match aggregation_step o.llm ev with
      | .ok r => { rs with stops := rs.stops ++ [r] }
      | .error e => { rs with raised := rs.raised ++ [e] }
    match final_aggregation_step o.llm rs1.store ev with
    | .ok (store2, r) => { rs1 with store := store2, stops := rs1.stops ++ [r] }
    | .error e => { rs1 with raised := rs1.raised ++ [e] }

def runLoop (o : Oracles) : Nat → RunState → RunState
  | 0, rs => rs
  | Nat.succ fuel, rs =>
    match rs.queue with
    | [] => rs
    | e :: rest => runLoop o fuel (handleEvent o { rs with queue := rest } e)

/-- One full run for a caller-supplied request id (`start_analysis`,
lines 76–81, keeps a supplied id as is). -/
def runWorkflow (o : Oracles) (request_id code : String) : RunState :=
  runLoop o 32 ⟨emptyStore, [WEvent.codeRequest request_id code], [], []⟩

end CodeAnalysisWorkflow

namespace CodeAnalysisWorkflow

/-! ## Derived definitions used by the statements below -/

/-- The Assessment Stage's parsing procedure in isolation (lines 115–119):
JSON-decode the slice between the first `\x7b` and the last `\x7d`, `none`
when no such slice exists or the slice does not decode. -/
def assessExtractParse (assessment_response_str : String) : Option Json :=
  let json_start_index := pyFindChar assessment_response_str '\x7b'
  let json_end_index := pyRfindChar assessment_response_str '\x7d' + 1
  if json_start_index ≠ -1 ∧ json_end_index ≠ -1 ∧ json_start_index < json_end_index then
    jsonLoads (pySubstr assessment_response_str json_start_index.toNat json_end_index.toNat)
  else none

/-- Does `pat` occur as a contiguous substring of the second list? -/
def containsSub (pat : List Char) : List Char → Bool
  | [] => pat.isPrefixOf []
  | c :: cs => pat.isPrefixOf (c :: cs) || containsSub pat cs

/-- Reading of the spec phrase "a `FindingRecord` whose `issue` indicates an
input error": the issue text mentions an error, emptiness, or the input
(case-insensitively). -/
def indicatesInputError (s : String) : Bool :=
  containsSub "error".data (s.data.map Char.toLower)
  || containsSub "empty".data (s.data.map Char.toLower)
  || containsSub "input".data (s.data.map Char.toLower)

/-- An aggregation LLM response that is a well-formed `OutputSchema` JSON
object. -/
def c1AggResponse : String :=
  "\x7b\"code\":\"\",\"issue\":\"ok\",\"reason\":\"r\",\"fixed_code\":\"\",\"feedback\":\"f\"\x7d"

def c1Oracle : Oracles := ⟨fun _ => c1AggResponse, fun _ => .ok "", fun _ => .ok ""⟩

def c3Agg : AggregationReadyEvent :=
  ⟨"req-3", "print(1)", ⟨"standard", true, true, "r"⟩, none, none⟩

/-- An aggregation LLM response whose `issue` does not hint at any input
problem. -/
def c4Response : String :=
  "\x7b\"issue\":\"All checks passed\",\"feedback\":\"f\",\"reason\":\"r\",\"fixed_code\":\"\",\"code\":\"\"\x7d"

def c4Oracle : Oracles := ⟨fun _ => c4Response, fun _ => .ok "", fun _ => .ok ""⟩

def c5F1 : OutputSchema := ⟨"c", "doc issue", "r1", none, "fb1"⟩
def c5F2 : OutputSchema := ⟨"c", "sec issue", "r2", none, "fb2"⟩
def c5Decision : OrchestratorDecision := ⟨"standard", true, true, "both agents"⟩
def c5Store0 : Store := (dispatch_agencies_step emptyStore "req-5" "c" c5Decision).1
def c5Run1 : Store × Option AggregationReadyEvent :=
  collector_step c5Store0 (CompletionEvent.doc "req-5" (some c5F1))
def c5Run2 : Store × Option AggregationReadyEvent :=
  collector_step c5Run1.1 (CompletionEvent.sec "req-5" (some c5F2))

end CodeAnalysisWorkflow

/-! ## Helper lemmas -/

theorem CodeAnalysisWorkflow.storeSet_same (st : CodeAnalysisWorkflow.Store) (k : String)
    (v : Option CodeAnalysisWorkflow.WorkflowState) :
    CodeAnalysisWorkflow.storeSet st k v k = v := by
  simp [CodeAnalysisWorkflow.storeSet]

open CodeAnalysisWorkflow in
/-- C3 (code bug evidence): the Aggregation Stage is NOT total.  On an LLM
response that is not JSON, `final_aggregation_step` calls `.get` on the
`None` returned by `parse_thinking_outputs` and raises `AttributeError`
instead of returning a degraded record, and `aggregation_step`'s `except`
clause constructs `OutputSchema` without any of its required fields, so the
fallback itself raises a pydantic `ValidationError`. -/
theorem C3_aggregation_raises_on_unparsable :
    final_aggregation_step (fun _ => "not json") emptyStore c3Agg
      = Except.error "AttributeError: NoneType object has no attribute get"
    ∧ aggregation_step (fun _ => "not json") c3Agg
      = Except.error "ValidationError: 4 validation errors for OutputSchema" :=
  ⟨rfl, rfl⟩

/-- C6: on an agent LLM response that does not parse as JSON
(`parse_thinking_outputs` returns `None`), both sub-analysis agents return
— without raising — the record with `issue = "Agent Response Error"`, a
`feedback` that embeds the raw response text, and `fixed_code` equal to the
original input code. -/
theorem C6_agent_response_error (query resp : String)
    (h : parse_thinking_outputs resp = none) :
    DocAgent.analyze_documentation (fun _ => Except.ok resp) query =
      ⟨query, "Agent Response Error",
       "Agent failed to format its output correctly after processing.",
       some query,
       "Agent did not produce the expected JSON output. Raw response: " ++ resp⟩
    ∧ SecurityAgent.analyze_security (fun _ => Except.ok resp) query =
      ⟨query, "Agent Response Error",
       "Agent failed to format its output correctly after processing.",
       some query,
       "Agent did not produce the expected JSON output. Raw response: " ++ resp⟩ := by
  constructor
  · simp [DocAgent.analyze_documentation, DocAgent.docTryBody, h, optTruthy]
  · simp [SecurityAgent.analyze_security, SecurityAgent.secTryBody, h, optTruthy]

/-- Witness for C6 at the concrete unparsable response `"not json"`. -/
theorem C6_agent_response_error_witness :
    DocAgent.analyze_documentation (fun _ => Except.ok "not json") "def f(): pass" =
      ⟨"def f(): pass", "Agent Response Error",
       "Agent failed to format its output correctly after processing.",
       some "def f(): pass",
       "Agent did not produce the expected JSON output. Raw response: not json"⟩
    ∧ SecurityAgent.analyze_security (fun _ => Except.ok "not json") "def f(): pass" =
      ⟨"def f(): pass", "Agent Response Error",
       "Agent failed to format its output correctly after processing.",
       some "def f(): pass",
       "Agent did not produce the expected JSON output. Raw response: not json"⟩ :=
  C6_agent_response_error "def f(): pass" "not json" rfl

/-- C7 (counterexample): on an exception the Documentation agent's error
record is tagged `"Agent Execution Error"`, not its own name followed by
`"Execution Error"`. -/
theorem C7_doc_agent_tag_counterexample :
    (DocAgent.analyze_documentation (fun _ => Except.error "boom") "q").issue
      = "Agent Execution Error"
    ∧ (DocAgent.analyze_documentation (fun _ => Except.error "boom") "q").issue
      ≠ "DocAgent Execution Error" := by
  constructor
  · rfl
  · intro h
    exact absurd h (by decide)

/-- C7 (amended): when the agent's query raises, each agent catches the
exception and returns an error record — `issue = "Agent Execution Error"`
for the Documentation agent, `issue = "SecurityAgent Execution Error"` for
the Security agent — with the exception message embedded in `feedback`;
neither agent propagates the exception. -/
theorem C7_execution_error_records (query e : String) :
    DocAgent.analyze_documentation (fun _ => Except.error e) query =
      ⟨query, "Agent Execution Error",
       "The documentation analysis agent encountered an internal error.",
       some query, "An error occurred: " ++ e⟩
    ∧ SecurityAgent.analyze_security (fun _ => Except.error e) query =
      ⟨query, "SecurityAgent Execution Error",
       "Exception during agent processing.",
       some query, "Error in SecurityAgent: " ++ e⟩ :=
  ⟨rfl, rfl⟩

open CodeAnalysisWorkflow in
/-- C8 (counterexample): on the raw response `"not json"` the Assessment
Stage defaults to `standard` depth with both agents invoked, but its
`reasoning` is the parse-error diagnostic — which does NOT contain the raw
LLM response text. -/
theorem C8_reasoning_counterexample :
    assessResponseDecision "not json" =
      ⟨"standard", true, true, "Parse error: No JSON found: line 1 column 1 (char 0)"⟩
    ∧ containsSub "not json".data
        "Parse error: No JSON found: line 1 column 1 (char 0)".data = false := by
  exact ⟨rfl, by decide⟩

open CodeAnalysisWorkflow in
/-- C8 (amended): on any response whose brace-delimited candidate slice is
missing, undecodable, or fails `OrchestratorDecision` validation, the
Assessment Stage returns `analysis_depth = "standard"`, both agents
invoked, and `reasoning = "Parse error: " ++ e` where `e` is the exception
message (not the raw response). -/
theorem C8_parse_failure_default (resp e : String)
    (h : assessTryDecision resp = Except.error e) :
    assessResponseDecision resp = ⟨"standard", true, true, "Parse error: " ++ e⟩ := by
  simp [assessResponseDecision, h]

open CodeAnalysisWorkflow in
/-- Witness for C8 at the concrete response `"not json"`. -/
theorem C8_parse_failure_default_witness :
    assessResponseDecision "not json" =
      ⟨"standard", true, true, "Parse error: No JSON found: line 1 column 1 (char 0)"⟩ :=
  C8_parse_failure_default "not json" "No JSON found: line 1 column 1 (char 0)" rfl

open CodeAnalysisWorkflow in
/-- C10: the Assessment step is total on every LLM response: either the
`try` block produced a validated decision, or the blanket `except` clause
replaced the failure with the default decision (`standard`, both agents
invoked, reasoning prefixed by the parse-error diagnostic).  Validation
errors on well-formed JSON — missing or mistyped keys — fall under the
second branch just like decode errors. -/
theorem C10_assessment_step_total (resp : String) :
    assessTryDecision resp = Except.ok (assessResponseDecision resp)
    ∨ ((assessResponseDecision resp).analysis_depth = "standard"
       ∧ (assessResponseDecision resp).invoke_doc_agent = true
       ∧ (assessResponseDecision resp).invoke_security_agent = true
       ∧ ∃ e, assessTryDecision resp = Except.error e
            ∧ (assessResponseDecision resp).reasoning = "Parse error: " ++ e) := by
  cases h : assessTryDecision resp with
  | ok d => left; simp [assessResponseDecision, h]
  | error e => right; simp [assessResponseDecision, h]

open CodeAnalysisWorkflow in
/-- C2: with both agents invoked, the Collector emits nothing after the
first completion event (in either order), and both arrival orders converge
to the identical `AggregationReadyEvent` payload. -/
theorem C2_collector_commutative (store : Store) (rid code : String)
    (a : OrchestratorDecision) (d s : Option OutputSchema)
    (hd : a.invoke_doc_agent = true) (hs : a.invoke_security_agent = true) :
    (collector_step (dispatch_agencies_step store rid code a).1
        (CompletionEvent.doc rid d)).2 = none
    ∧ (collector_step (dispatch_agencies_step store rid code a).1
        (CompletionEvent.sec rid s)).2 = none
    ∧ (collector_step (collector_step (dispatch_agencies_step store rid code a).1
          (CompletionEvent.doc rid d)).1 (CompletionEvent.sec rid s)).2
        = some ⟨rid, code, a, d, s⟩
    ∧ (collector_step (collector_step (dispatch_agencies_step store rid code a).1
          (CompletionEvent.sec rid s)).1 (CompletionEvent.doc rid d)).2
        = some ⟨rid, code, a, d, s⟩ := by
  have hna : ¬(a.invoke_doc_agent = false ∧ a.invoke_security_agent = false) := by
    simp [hd]
  simp [dispatch_agencies_step, collector_step, CompletionEvent.request_id,
        storeSet, hd, hs, hna, Slot.findings]

open CodeAnalysisWorkflow in
/-- Witness for C2 at a concrete both-agents decision and findings. -/
theorem C2_collector_commutative_witness :
    (collector_step (dispatch_agencies_step emptyStore "req-2" "x = 1"
        ⟨"deep", true, true, "inspect both"⟩).1
        (CompletionEvent.doc "req-2" (some ⟨"x = 1", "d", "rd", none, "fd"⟩))).2 = none
    ∧ (collector_step (dispatch_agencies_step emptyStore "req-2" "x = 1"
        ⟨"deep", true, true, "inspect both"⟩).1
        (CompletionEvent.sec "req-2" (some ⟨"x = 1", "s", "rs", none, "fs"⟩))).2 = none
    ∧ (collector_step (collector_step (dispatch_agencies_step emptyStore "req-2" "x = 1"
          ⟨"deep", true, true, "inspect both"⟩).1
          (CompletionEvent.doc "req-2" (some ⟨"x = 1", "d", "rd", none, "fd"⟩))).1
          (CompletionEvent.sec "req-2" (some ⟨"x = 1", "s", "rs", none, "fs"⟩))).2
        = some ⟨"req-2", "x = 1", ⟨"deep", true, true, "inspect both"⟩,
                some ⟨"x = 1", "d", "rd", none, "fd"⟩, some ⟨"x = 1", "s", "rs", none, "fs"⟩⟩
    ∧ (collector_step (collector_step (dispatch_agencies_step emptyStore "req-2" "x = 1"
          ⟨"deep", true, true, "inspect both"⟩).1
          (CompletionEvent.sec "req-2" (some ⟨"x = 1", "s", "rs", none, "fs"⟩))).1
          (CompletionEvent.doc "req-2" (some ⟨"x = 1", "d", "rd", none, "fd"⟩))).2
        = some ⟨"req-2", "x = 1", ⟨"deep", true, true, "inspect both"⟩,
                some ⟨"x = 1", "d", "rd", none, "fd"⟩, some ⟨"x = 1", "s", "rs", none, "fs"⟩⟩ :=
  C2_collector_commutative emptyStore "req-2" "x = 1" ⟨"deep", true, true, "inspect both"⟩
    (some ⟨"x = 1", "d", "rd", none, "fd"⟩) (some ⟨"x = 1", "s", "rs", none, "fs"⟩) rfl rfl

open CodeAnalysisWorkflow in
/-- C5 (counterexample): after both completion events the Collector fires
`AggregationReadyEvent`, yet the per-request state is still present in the
context — the Collector does not clear it. -/
theorem C5_collector_keeps_state_counterexample :
    (c5Run2.2).isSome = true ∧ c5Run2.1 "req-5" ≠ none := by
  constructor
  · rfl
  · intro hcontra
    rw [show c5Run2.1 "req-5"
          = some ⟨c5Decision, "c", Slot.value (some c5F1), Slot.value (some c5F2)⟩ from rfl]
        at hcontra
    cases hcontra

open CodeAnalysisWorkflow in
/-- C5 (amended): the Collector re-persists the filled state and never
deletes it when it fires; the per-request state is cleared (set to `None`)
only by `final_aggregation_step` on success, after which a completion
event for that request identifier finds no state and is discarded
unchanged. -/
theorem C5_state_lifecycle (store : Store) (ev : CompletionEvent) (st : WorkflowState)
    (h : store ev.request_id = some st) :
    ((collector_step store ev).1 ev.request_id).isSome = true
    ∧ (∀ (llm : String → String) (store2 : Store) (agg : AggregationReadyEvent)
         (res : Store × WorkflowCompleteOutput),
        final_aggregation_step llm store2 agg = Except.ok res → res.1 agg.request_id = none)
    ∧ (∀ (store3 : Store) (ev3 : CompletionEvent), store3 ev3.request_id = none →
        collector_step store3 ev3 = (store3, none)) := by
  refine ⟨?_, ?_, ?_⟩
  · cases ev with
    | doc rid f =>
      simp only [CompletionEvent.request_id] at h ⊢
      unfold collector_step
      simp only [CompletionEvent.request_id, h]
      split <;> simp [storeSet]
    | sec rid f =>
      simp only [CompletionEvent.request_id] at h ⊢
      unfold collector_step
      simp only [CompletionEvent.request_id, h]
      split <;> simp [storeSet]
  · intro llm store2 agg res hres
    simp only [final_aggregation_step] at hres
    cases hf : finalAggFields (parse_thinking_outputs (llm (aggregation_prompt agg))) with
    | error e => rw [hf] at hres; simp at hres
    | ok fields =>
      rw [hf] at hres
      obtain ⟨issue, feedback, reason, fixed⟩ := fields
      simp only [Except.ok.injEq] at hres
      rw [← hres]
      simp [storeSet]
  · intro store3 ev3 h3
    unfold collector_step
    rw [h3]

open CodeAnalysisWorkflow in
/-- Witness for C5 at a concrete stored state and completion event. -/
theorem C5_state_lifecycle_witness :
    ((collector_step (storeSet emptyStore "req-5w" (some ⟨c5Decision, "c", Slot.expected, Slot.expected⟩))
        (CompletionEvent.doc "req-5w" (some c5F1))).1
        (CompletionEvent.doc "req-5w" (some c5F1)).request_id).isSome = true
    ∧ (∀ (llm : String → String) (store2 : Store) (agg : AggregationReadyEvent)
         (res : Store × WorkflowCompleteOutput),
        final_aggregation_step llm store2 agg = Except.ok res → res.1 agg.request_id = none)
    ∧ (∀ (store3 : Store) (ev3 : CompletionEvent), store3 ev3.request_id = none →
        collector_step store3 ev3 = (store3, none)) :=
  C5_state_lifecycle
    (storeSet emptyStore "req-5w" (some ⟨c5Decision, "c", Slot.expected, Slot.expected⟩))
    (CompletionEvent.doc "req-5w" (some c5F1))
    ⟨c5Decision, "c", Slot.expected, Slot.expected⟩ rfl

open CodeAnalysisWorkflow in
/-- C9 (counterexample): on the response `"ok \x7b\x7d"` the agents' procedure
(`json.loads` of the whole text) fails while the Assessment Stage's
procedure (decode the slice between the braces) succeeds — the two parsing
procedures are not equivalent. -/
theorem C9_parse_divergence_counterexample :
    parse_thinking_outputs "ok \x7b\x7d" = none
    ∧ assessExtractParse "ok \x7b\x7d" = some (Json.obj [])
    ∧ parse_thinking_outputs "ok \x7b\x7d" ≠ assessExtractParse "ok \x7b\x7d" := by
  refine ⟨rfl, rfl, ?_⟩
  intro hcontra
  rw [show parse_thinking_outputs "ok \x7b\x7d" = none from rfl,
      show assessExtractParse "ok \x7b\x7d" = some (Json.obj []) from rfl] at hcontra
  cases hcontra

open CodeAnalysisWorkflow in
/-- C9 (amended): the two procedures do agree on every response that
contains no `"</think>"` marker and is exactly a brace-delimited JSON
candidate (first character `\x7b`, last character `\x7d`): both then decode
the whole response. -/
theorem C9_parse_agreement (s : String)
    (h1 : s.data.head? = some '\x7b')
    (h2 : s.data.getLast? = some '\x7d')
    (h3 : afterLastMarkerAux thinkMarker s.data = none) :
    parse_thinking_outputs s = assessExtractParse s := by
  have hl : parse_thinking_outputs s = jsonLoads s := by
    unfold parse_thinking_outputs
    rw [h3]
  obtain ⟨t, ht⟩ : ∃ t, s.data = '\x7b' :: t := by
    cases hd : s.data with
    | nil => rw [hd] at h1; cases h1
    | cons c cs =>
      rw [hd] at h1
      simp only [List.head?_cons, Option.some.injEq] at h1
      exact ⟨cs, by rw [h1]⟩
  have hfind : pyFindChar s '\x7b' = 0 := by
    unfold pyFindChar
    rw [ht]
    simp [charIdx]
  obtain ⟨r, hr⟩ : ∃ r, s.data.reverse = '\x7d' :: r := by
    have hh : s.data.reverse.head? = some '\x7d' := by
      rw [List.head?_reverse]
      exact h2
    cases hrv : s.data.reverse with
    | nil => rw [hrv] at hh; cases hh
    | cons c cs =>
      rw [hrv] at hh
      simp only [List.head?_cons, Option.some.injEq] at hh
      exact ⟨cs, by rw [hh]⟩
  have hrfind : pyRfindChar s '\x7d' = ((s.data.length - 1 : Nat) : Int) := by
    unfold pyRfindChar
    rw [hr]
    simp [charIdx, Int.ofNat_eq_coe]
  have hlen : 1 ≤ s.data.length := by rw [ht]; simp
  have hj : pyRfindChar s '\x7d' + 1 = ((s.data.length : Nat) : Int) := by
    rw [hrfind]; omega
  have hcond : pyFindChar s '\x7b' ≠ -1 ∧ pyRfindChar s '\x7d' + 1 ≠ -1
      ∧ pyFindChar s '\x7b' < pyRfindChar s '\x7d' + 1 := by
    rw [hfind, hj]
    refine ⟨by decide, by omega, by omega⟩
  have hsub : pySubstr s (pyFindChar s '\x7b').toNat (pyRfindChar s '\x7d' + 1).toNat = s := by
    rw [hfind, hj]
    unfold pySubstr
    have hts : (s.data.drop ((0 : Int).toNat)).take
        ((((s.data.length : Nat) : Int)).toNat - (0 : Int).toNat) = s.data := by
      rw [show (((s.data.length : Nat) : Int)).toNat = s.data.length from rfl,
          show ((0 : Int)).toNat = 0 from rfl]
      simp
    rw [hts]
  unfold assessExtractParse
  rw [if_pos hcond, hsub, hl]

open CodeAnalysisWorkflow in
/-- Witness for C9 at the concrete response `"\x7b\x7d"`. -/
theorem C9_parse_agreement_witness :
    parse_thinking_outputs "\x7b\x7d" = assessExtractParse "\x7b\x7d" :=
  C9_parse_agreement "\x7b\x7d" rfl rfl rfl

open CodeAnalysisWorkflow in
/-- C1 (code bug evidence): one request does NOT reach `Complete` exactly
once.  The single `AggregationReadyEvent` of this run (empty input, so the
dispatcher emits it immediately) is consumed by both `aggregation_step` and
`final_aggregation_step` — both accept that event type and both return a
`StopEvent` — so the run performs two final aggregations and produces two
`WorkflowCompleteOutput` results for the same request identifier, with no
step raising. -/
theorem C1_two_stop_events_per_request :
    ((runWorkflow c1Oracle "req-1" "").stops.map (fun r => r.request_id))
      = ["req-1", "req-1"]
    ∧ (runWorkflow c1Oracle "req-1" "").raised = [] :=
  ⟨rfl, rfl⟩

open CodeAnalysisWorkflow in
/-- C4 (counterexample): with whitespace-only input the workflow does reach
`Complete`, but every final `FindingRecord` it produces carries the issue
text the aggregation LLM chose — here `"All checks passed"`, which
indicates no input error. -/
theorem C4_final_issue_counterexample :
    ((runWorkflow c4Oracle "req-4" "   ").stops.map
        (fun r => r.final_aggregated_output.issue))
      = ["All checks passed", "All checks passed"]
    ∧ indicatesInputError "All checks passed" = false :=
  ⟨rfl, by decide⟩

open CodeAnalysisWorkflow in
/-- C4 (amended): for empty or whitespace-only code the Assessment Stage
returns exactly `\x7bminimum, false, false, "Input code was empty."\x7d` with
zero LLM calls, and the dispatcher then immediately emits
`AggregationReadyEvent` with both findings `None` and allocates no state;
the final record's issue is whatever the aggregation LLM call yields. -/
theorem C4_empty_input_shortcircuit (llm : String → String) (code rid : String)
    (store : Store) (h : pyStrip code = "") :
    initial_assessment_step llm code = (0, emptyCodeDecision)
    ∧ dispatch_agencies_step store rid code emptyCodeDecision
      = (store, [WEvent.aggReady ⟨rid, code, emptyCodeDecision, none, none⟩]) := by
  constructor
  · simp [initial_assessment_step, h]
  · simp [dispatch_agencies_step, emptyCodeDecision]

open CodeAnalysisWorkflow in
/-- Witness for C4 at the concrete whitespace-only input `"   "`. -/
theorem C4_empty_input_shortcircuit_witness :
    initial_assessment_step (fun _ => "unused") "   " = (0, emptyCodeDecision)
    ∧ dispatch_agencies_step emptyStore "req-4w" "   " emptyCodeDecision
      = (emptyStore, [WEvent.aggReady ⟨"req-4w", "   ", emptyCodeDecision, none, none⟩]) :=
  C4_empty_input_shortcircuit (fun _ => "unused") "   " "req-4w" emptyStore rfl
